import Mathlib

/-!
Shallow embedding of the go.schedulesdirect client library, together with
proofs about its transport core (SendRequest), its chunked bulk endpoints,
its error-code taxonomy and its wire-coercion helpers (Date and
ConvertibleBoolean).

Conventions of the embedding:
* Go strings are modelled by Lean `String` (the program IDs, tokens and
  JSON literals involved are ASCII, so Go's byte indexing and Lean's char
  indexing agree on every input used here).
* Go `time.Time` instants are modelled by `Int` (an absolute timestamp);
  `time.Now().After(t)` becomes `now > t`.
* Machine integers (`uint32` error codes, lengths) are modelled by `Nat`
  with explicit bounds where the Go code checks them.
* Network I/O is modelled by an explicit environment: a script of HTTP
  responses consumed by `HTTP.Do`, and a script of outcomes for the token
  endpoint consumed by `GetToken`.
-/

/-! ## Basic string helpers (decimal printing and parsing)

These model Go's `strconv` routines on the fragments the library uses:
`json.Marshal` of an unsigned integer emits its decimal digits, and
`strconv.ParseUint(s, 10, 32)` accepts a non-empty all-digit string whose
value fits in 32 bits. -/

/-- The decimal digit character for a value below ten. -/
def digitChar (n : Nat) : Char := Char.ofNat (48 + n)

/-- True for the ASCII characters 0-9. -/
def isDecimalDigit (c : Char) : Bool := 48 ≤ c.toNat && c.toNat ≤ 57

/-- Accumulator-style decimal printer: prepends the digits of `n` to
`acc`. Structural recursion on a fuel argument so that the function
reduces inside the kernel; `n + 1` units of fuel always suffice. -/
def natToDecimalAux (fuel : Nat) (n : Nat) (acc : List Char) : List Char :=
  match fuel with
  | 0 => acc
  | fuel + 1 =>
    if n < 10 then digitChar n :: acc
    else natToDecimalAux fuel (n / 10) (digitChar (n % 10) :: acc)

/-- Decimal representation of a natural number, as Go's `strconv.FormatUint`
(and hence `json.Marshal` on an unsigned integer) produces it. -/
def natToDecimal (n : Nat) : String := ⟨natToDecimalAux (n + 1) n []⟩

/-- Value of a digit string read left to right (the core of `ParseUint`). -/
def decimalValueFrom (init : Nat) (cs : List Char) : Nat :=
  cs.foldl (fun acc c => 10 * acc + (c.toNat - 48)) init

/-- Value of a digit string, starting from zero. -/
def decimalValue (cs : List Char) : Nat := decimalValueFrom 0 cs

/-- Model of Go's `strconv.ParseUint(s, 10, 32)`: succeeds exactly on a
non-empty all-digit string whose value fits in an unsigned 32-bit integer
(on overflow or any non-digit byte Go returns a non-nil error, which the
calling code treats as a parse failure). -/
def parseUint32 (s : String) : Option Nat :=
  if s.data ≠ [] ∧ s.data.all isDecimalDigit ∧ decimalValue s.data < 2 ^ 32 then
    some (decimalValue s.data)
  else none

/-- Wraps a string in double quotes without escaping, as `json.Marshal`
does for the quote-free ASCII strings used by this library. -/
def quoteStr (t : String) : String := ⟨'"' :: t.data ++ ['"']⟩

/-! ### Decimal round-trip lemmas -/

theorem natToDecimalAux_ne_nil_of_acc (fuel n : Nat) (acc : List Char)
    (hacc : acc ≠ []) : natToDecimalAux fuel n acc ≠ [] := by
  induction fuel generalizing n acc with
  | zero => exact hacc
  | succ fuel ih =>
    rw [natToDecimalAux]
    split
    · simp
    · exact ih (n / 10) _ (by simp)

theorem natToDecimalAux_ne_nil (fuel n : Nat) (acc : List Char) :
    natToDecimalAux (fuel + 1) n acc ≠ [] := by
  rw [natToDecimalAux]
  split
  · simp
  · exact natToDecimalAux_ne_nil_of_acc fuel (n / 10) _ (by simp)

theorem digitChar_toNat (n : Nat) (h : n < 10) : (digitChar n).toNat = 48 + n := by
  interval_cases n <;> decide

theorem isDecimalDigit_digitChar (n : Nat) (h : n < 10) :
    isDecimalDigit (digitChar n) = true := by
  interval_cases n <;> decide

theorem natToDecimalAux_all_digits (fuel n : Nat) (acc : List Char)
    (hacc : acc.all isDecimalDigit = true) :
    (natToDecimalAux fuel n acc).all isDecimalDigit = true := by
  induction fuel generalizing n acc with
  | zero => exact hacc
  | succ fuel ih =>
    rw [natToDecimalAux]
    split
    · next h => simpa [hacc] using isDecimalDigit_digitChar n h
    · exact ih (n / 10) _
        (by simpa [hacc] using isDecimalDigit_digitChar (n % 10) (Nat.mod_lt _ (by norm_num)))

theorem decimalValueFrom_cons (init : Nat) (c : Char) (cs : List Char) :
    decimalValueFrom init (c :: cs) = decimalValueFrom (10 * init + (c.toNat - 48)) cs := rfl

theorem decimalValueFrom_eq (init : Nat) (cs : List Char) :
    decimalValueFrom init cs = init * 10 ^ cs.length + decimalValue cs := by
  induction cs generalizing init with
  | nil => simp [decimalValueFrom, decimalValue]
  | cons c cs ih =>
    have h2 : decimalValue (c :: cs) = (c.toNat - 48) * 10 ^ cs.length + decimalValue cs := by
      rw [decimalValue, decimalValueFrom_cons, ih]; ring
    rw [decimalValueFrom_cons, ih, h2]
    simp only [List.length_cons, pow_succ]
    ring

theorem decimalValue_natToDecimalAux (fuel : Nat) :
    ∀ (n : Nat) (acc : List Char), n < 10 ^ fuel →
      decimalValue (natToDecimalAux fuel n acc) = n * 10 ^ acc.length + decimalValue acc := by
  induction fuel with
  | zero =>
    intro n acc hn
    interval_cases n
    simp [natToDecimalAux]
  | succ fuel ih =>
    intro n acc hn
    rw [natToDecimalAux]
    split
    · next h =>
      rw [decimalValue, decimalValueFrom_cons, decimalValueFrom_eq, digitChar_toNat n h]
      simp
    · next h =>
      have hdiv : n / 10 < 10 ^ fuel := by
        refine Nat.div_lt_of_lt_mul ?_
        calc n < 10 ^ (fuel + 1) := hn
          _ = 10 * 10 ^ fuel := by ring
      rw [ih (n / 10) _ hdiv]
      have h3 : decimalValue (digitChar (n % 10) :: acc) =
          (n % 10) * 10 ^ acc.length + decimalValue acc := by
        rw [decimalValue, decimalValueFrom_cons, decimalValueFrom_eq,
          digitChar_toNat (n % 10) (Nat.mod_lt _ (by norm_num))]
        simp
      rw [h3]
      have hdm : 10 * (n / 10) + n % 10 = n := Nat.div_add_mod n 10
      calc n / 10 * 10 ^ (digitChar (n % 10) :: acc).length +
            ((n % 10) * 10 ^ acc.length + decimalValue acc)
          = (10 * (n / 10) + n % 10) * 10 ^ acc.length + decimalValue acc := by
            simp only [List.length_cons, pow_succ]; ring
        _ = n * 10 ^ acc.length + decimalValue acc := by rw [hdm]

theorem lt_ten_pow_succ_self (n : Nat) : n < 10 ^ (n + 1) := by
  calc n < 2 ^ n := Nat.lt_two_pow n
    _ ≤ 10 ^ n := Nat.pow_le_pow_left (by norm_num) _
    _ ≤ 10 ^ (n + 1) := Nat.pow_le_pow_right (by norm_num) (Nat.le_succ n)

/-- Parsing the decimal representation of a 32-bit value gives it back. -/
theorem parseUint32_natToDecimal (n : Nat) (h : n < 2 ^ 32) :
    parseUint32 (natToDecimal n) = some n := by
  have hall := natToDecimalAux_all_digits (n + 1) n [] (by simp)
  have hval : decimalValue (natToDecimalAux (n + 1) n []) = n := by
    rw [decimalValue_natToDecimalAux (n + 1) n [] (lt_ten_pow_succ_self n)]
    simp [decimalValue, decimalValueFrom]
  rw [parseUint32, if_pos]
  · simp only [natToDecimal, Option.some.injEq]
    exact hval
  · refine ⟨natToDecimalAux_ne_nil n n [], ?_, ?_⟩
    · simpa [natToDecimal] using hall
    · simpa [natToDecimal, hval] using h

/-! ## ConvertibleBoolean (claim C9)

Embeds the loosely-typed boolean coder of the structs file
(`ConvertibleBoolean`, with its `UnmarshalJSON` and `MarshalJSON`). -/

/-- Model of the Go type: the boolean value and whether the original JSON
literal was quoted. The Go struct embeds `bool` and a `quoted` flag. -/
structure ConvertibleBoolean where
  b : Bool
  quoted : Bool
deriving DecidableEq, Repr

/-- Model of `ConvertibleBoolean.UnmarshalJSON`: records whether the input
contains a double quote (Go: `strings.Contains`), removes every double
quote (Go: `strings.Replace` with count -1), then compares against the
accepted words. Returns the Go error message on anything else. -/
def convertibleBooleanUnmarshal (data : String) : Except String ConvertibleBoolean :=
  let quoted := data.data.any (fun c => c = '"')
  let asString : String := ⟨data.data.filter (fun c => c ≠ '"')⟩
  if asString = "1" ∨ asString = "true" ∨ asString = "yes" then
    .ok ⟨true, quoted⟩
  else if asString = "0" ∨ asString = "false" ∨ asString = "no" then
    .ok ⟨false, quoted⟩
  else
    .error ("Boolean unmarshal error: invalid input " ++ asString)

/-- Model of `ConvertibleBoolean.MarshalJSON`: the payload is the digit 1 or
0 (an `int8` in Go), quoted exactly when the value was decoded from a
quoted literal. -/
def convertibleBooleanMarshal (bit : ConvertibleBoolean) : String :=
  let bitSetVar : String := if bit.b then "1" else "0"
  if bit.quoted then quoteStr bitSetVar else bitSetVar

/-- The eight literals accepted per the claim. -/
def convertibleBooleanLiterals : List String :=
  ["0", "1", "\"0\"", "\"1\"", "\"true\"", "\"false\"", "\"yes\"", "\"no\""]

/-- Whether a JSON literal is in quoted style (contains a double quote),
matching the test the decoder itself performs. -/
def literalIsQuoted (s : String) : Bool := s.data.any (fun c => c = '"')

/-- The value a literal decodes to (default value for the error case,
unused on the eight literals of interest). -/
def decodeCB (s : String) : ConvertibleBoolean :=
  ((convertibleBooleanUnmarshal s).toOption).getD ⟨false, false⟩

/-- Claim C9: for each of the eight literals 0, 1, "0", "1", "true",
"false", "yes", "no", decoding succeeds; re-encoding produces a literal
whose quoting style equals the input's; decoding the re-encoded literal
yields the same boolean value; and the re-encoded payload with quotes
stripped is the digit 0 or 1, never a word. -/
theorem convertibleBoolean_roundtrip (s : String)
    (hs : s ∈ convertibleBooleanLiterals) :
    convertibleBooleanUnmarshal s = .ok (decodeCB s) ∧
      literalIsQuoted (convertibleBooleanMarshal (decodeCB s)) = literalIsQuoted s ∧
      convertibleBooleanUnmarshal (convertibleBooleanMarshal (decodeCB s)) =
        .ok (decodeCB s) ∧
      ((convertibleBooleanMarshal (decodeCB s)).data.filter (fun c => c ≠ '"') = ['0'] ∨
       (convertibleBooleanMarshal (decodeCB s)).data.filter (fun c => c ≠ '"') = ['1']) := by
  fin_cases hs <;> exact ⟨rfl, by decide, rfl, by decide⟩

/-- Witness for C9 at the literal "yes" (quoted): it decodes to true with
quoting remembered, re-encodes to the quoted digit 1, and round-trips. -/
theorem convertibleBoolean_roundtrip_witness :
    convertibleBooleanUnmarshal "\"yes\"" = .ok (decodeCB "\"yes\"") ∧
      literalIsQuoted (convertibleBooleanMarshal (decodeCB "\"yes\"")) =
        literalIsQuoted "\"yes\"" ∧
      convertibleBooleanUnmarshal (convertibleBooleanMarshal (decodeCB "\"yes\"")) =
        .ok (decodeCB "\"yes\"") ∧
      ((convertibleBooleanMarshal (decodeCB "\"yes\"")).data.filter (fun c => c ≠ '"') = ['0'] ∨
       (convertibleBooleanMarshal (decodeCB "\"yes\"")).data.filter (fun c => c ≠ '"') = ['1']) :=
  convertibleBoolean_roundtrip "\"yes\"" (by decide)

/-! ## Program-ID truncation in GetArtworkForProgramIDs (claim C10)

The artwork endpoint method (schedulesdirect.go) contains, on its
at-most-500-IDs path, the loop

    for idx, programID := range programIDs {
        if len(programID) > 10 {
            programIDs[idx] = programID[:10]
        }
    }

which assigns through the caller-provided slice: Go slices share their
backing array with the caller, so after the call returns the caller's own
slice holds the truncated IDs. `truncateProgramIDs` embeds the loop's
effect on the slice contents, element by element in order. -/

/-- The in-place truncation loop of `GetArtworkForProgramIDs`, as the list
of values the slice holds after the loop: each ID longer than 10 bytes is
replaced by its first 10 bytes. -/
def truncateProgramIDs : List String → List String
  | [] => []
  | p :: rest => (if p.length > 10 then p.take 10 else p) :: truncateProgramIDs rest

/-- Caller-visible contents of the `programIDs` argument after the
at-most-500-IDs path of `GetArtworkForProgramIDs` ran: because the loop
assigns into the shared backing array, the caller's slice shows exactly
the loop's output. -/
def callerProgramIDsAfterArtworkCall (programIDs : List String) : List String :=
  truncateProgramIDs programIDs

theorem truncateProgramIDs_eq_map (ids : List String) :
    truncateProgramIDs ids =
      ids.map (fun p => if p.length > 10 then p.take 10 else p) := by
  induction ids with
  | nil => rfl
  | cons p rest ih => simp [truncateProgramIDs, ih]

/-- Claim C10: for every input slice of at most 500 IDs, after
`GetArtworkForProgramIDs` returns, the caller's slice has the same length
and, position by position, holds the first 10 characters of each ID that
was longer than 10 characters and the unchanged ID otherwise. The bound of
500 is the branch condition under which the truncation loop runs. -/
theorem getArtwork_mutates_caller_slice (ids : List String)
    (h500 : ids.length ≤ 500) :
    (callerProgramIDsAfterArtworkCall ids).length = ids.length ∧
      ∀ (i : Nat) (h1 : i < (callerProgramIDsAfterArtworkCall ids).length)
        (h2 : i < ids.length),
        (callerProgramIDsAfterArtworkCall ids).get ⟨i, h1⟩ =
          if (ids.get ⟨i, h2⟩).length > 10 then (ids.get ⟨i, h2⟩).take 10
          else ids.get ⟨i, h2⟩ := by
  constructor
  · rw [callerProgramIDsAfterArtworkCall, truncateProgramIDs_eq_map, List.length_map]
  · intro i h1 h2
    simp [callerProgramIDsAfterArtworkCall, truncateProgramIDs_eq_map]

/-- Witness for C10 on a concrete two-element slice: the 16-character ID
is truncated to its first 10 characters in the caller's slice, the short
ID is untouched. -/
theorem getArtwork_mutates_caller_slice_witness :
    ((["EP0123456789ABCD", "SH000"] : List String).length ≤ 500) ∧
      ((callerProgramIDsAfterArtworkCall ["EP0123456789ABCD", "SH000"]).length =
          (["EP0123456789ABCD", "SH000"] : List String).length ∧
        ∀ (i : Nat)
          (h1 : i < (callerProgramIDsAfterArtworkCall ["EP0123456789ABCD", "SH000"]).length)
          (h2 : i < (["EP0123456789ABCD", "SH000"] : List String).length),
          (callerProgramIDsAfterArtworkCall ["EP0123456789ABCD", "SH000"]).get ⟨i, h1⟩ =
            if ((["EP0123456789ABCD", "SH000"] : List String).get ⟨i, h2⟩).length > 10 then
              ((["EP0123456789ABCD", "SH000"] : List String).get ⟨i, h2⟩).take 10
            else (["EP0123456789ABCD", "SH000"] : List String).get ⟨i, h2⟩) :=
  ⟨by decide, getArtwork_mutates_caller_slice ["EP0123456789ABCD", "SH000"] (by decide)⟩

/-! ## ErrorCode taxonomy (claims C6 and C7)

Embeds the error-code file: the named constants, `UnmarshalJSON` and
`InternalCode`. An `ErrorCode` is a `uint32`; it has no custom
`MarshalJSON`, so Go encodes it as its bare decimal digits
(`natToDecimal`). -/

/-- The `ErrOK` constant. -/
def ErrOK : Nat := 0

/-- The `ErrInvalidUser` constant (invalid username or password). -/
def ErrInvalidUser : Nat := 4003

/-- The `_maxCode` constant. -/
def maxCode : Nat := 10000

/-- The `strToCode` map of `ErrorCode.UnmarshalJSON`, in source order:
each key is the exact raw JSON bytes (including the double quotes). -/
def strToCode : List (String × Nat) := [
  ("\"OK\"", 0),
  ("\"INVALID_JSON\"", 1001),
  ("\"DEFLATE_REQUIRED\"", 1002),
  ("\"TOKEN_MISSING\"", 1004),
  ("\"UNSUPPORTED_COMMAND\"", 2000),
  ("\"REQUIRED_ACTION_MISSING\"", 2001),
  ("\"REQUIRED_REQUEST_MISSING\"", 2002),
  ("\"REQUIRED_PARAMETER_MISSING:COUNTRY\"", 2004),
  ("\"REQUIRED_PARAMETER_MISSING:POSTALCODE\"", 2005),
  ("\"REQUIRED_PARAMETER_MISSING:MSGID\"", 2006),
  ("\"INVALID_PARAMETER:COUNTRY\"", 2050),
  ("\"INVALID_PARAMETER:POSTALCODE\"", 2051),
  ("\"INVALID_PARAMETER:FETCHTYPE\"", 2052),
  ("\"DUPLICATE_LINEUP\"", 2100),
  ("\"LINEUP_NOT_FOUND\"", 2101),
  ("\"UNKNOWN_LINEUP\"", 2102),
  ("\"INVALID_LINEUP_DELETE\"", 2103),
  ("\"LINEUP_WRONG_FORMAT\"", 2104),
  ("\"INVALID_LINEUP\"", 2105),
  ("\"LINEUP_DELETED\"", 2106),
  ("\"LINEUP_QUEUED\"", 2107),
  ("\"INVALID_COUNTRY\"", 2108),
  ("\"STATIONID_NOT_FOUND\"", 2200),
  ("\"SERVICE_OFFLINE\"", 3000),
  ("\"ACCOUNT_EXPIRED\"", 4001),
  ("\"INVALID_HASH\"", 4002),
  ("\"INVALID_USER\"", 4003),
  ("\"ACCOUNT_LOCKOUT\"", 4004),
  ("\"ACCOUNT_DISABLED\"", 4005),
  ("\"TOKEN_EXPIRED\"", 4006),
  ("\"MAX_LINEUP_CHANGES_REACHED\"", 4100),
  ("\"MAX_LINEUPS\"", 4101),
  ("\"NO_LINEUPS\"", 4102),
  ("\"IMAGE_NOT_FOUND\"", 5000),
  ("\"INVALID_PROGRAMID\"", 6000),
  ("\"PROGRAMID_QUEUED\"", 6001),
  ("\"SCHEDULE_NOT_FOUND\"", 7000),
  ("\"INVALID_SCHEDULE_REQUEST\"", 7010),
  ("\"SCHEDULE_RANGE_EXCEEDED\"", 7020),
  ("\"SCHEDULE_NOT_IN_LINEUP\"", 7030),
  ("\"SCHEDULE_QUEUED\"", 7100),
  ("\"HCF\"", 9999)]

/-- The `codeToInternal` map of `ErrorCode.InternalCode`, in source order.
These pairs are the known codes of the taxonomy and their wire strings. -/
def codeToInternal : List (Nat × String) := [
  (0, "OK"),
  (1001, "INVALID_JSON"),
  (1002, "DEFLATE_REQUIRED"),
  (1004, "TOKEN_MISSING"),
  (2000, "UNSUPPORTED_COMMAND"),
  (2001, "REQUIRED_ACTION_MISSING"),
  (2002, "REQUIRED_REQUEST_MISSING"),
  (2004, "REQUIRED_PARAMETER_MISSING:COUNTRY"),
  (2005, "REQUIRED_PARAMETER_MISSING:POSTALCODE"),
  (2006, "REQUIRED_PARAMETER_MISSING:MSGID"),
  (2050, "INVALID_PARAMETER:COUNTRY"),
  (2051, "INVALID_PARAMETER:POSTALCODE"),
  (2052, "INVALID_PARAMETER:FETCHTYPE"),
  (2100, "DUPLICATE_LINEUP"),
  (2101, "LINEUP_NOT_FOUND"),
  (2102, "UNKNOWN_LINEUP"),
  (2103, "INVALID_LINEUP_DELETE"),
  (2104, "LINEUP_WRONG_FORMAT"),
  (2105, "INVALID_LINEUP"),
  (2106, "LINEUP_DELETED"),
  (2107, "LINEUP_QUEUED"),
  (2108, "INVALID_COUNTRY"),
  (2200, "STATIONID_NOT_FOUND"),
  (3000, "SERVICE_OFFLINE"),
  (4001, "ACCOUNT_EXPIRED"),
  (4002, "INVALID_HASH"),
  (4003, "INVALID_USER"),
  (4004, "ACCOUNT_LOCKOUT"),
  (4005, "ACCOUNT_DISABLED"),
  (4006, "TOKEN_EXPIRED"),
  (4100, "MAX_LINEUP_CHANGES_REACHED"),
  (4101, "MAX_LINEUPS"),
  (4102, "NO_LINEUPS"),
  (5000, "IMAGE_NOT_FOUND"),
  (6000, "INVALID_PROGRAMID"),
  (6001, "PROGRAMID_QUEUED"),
  (7000, "SCHEDULE_NOT_FOUND"),
  (7010, "INVALID_SCHEDULE_REQUEST"),
  (7020, "SCHEDULE_RANGE_EXCEEDED"),
  (7030, "SCHEDULE_NOT_IN_LINEUP"),
  (7100, "SCHEDULE_QUEUED"),
  (9999, "HCF")]

/-- Model of `ErrorCode.UnmarshalJSON` on non-null input: first try the
numeric path (`strconv.ParseUint(b, 10, 32)`; values at or above
`_maxCode` are rejected), then the `strToCode` map on the raw bytes.
Returns `none` where Go returns a non-nil error. The `null` no-op and the
nil-receiver check of the source do not affect the decoded value and are
omitted (the claims only concern non-null inputs). -/
def errorCodeUnmarshal (b : String) : Option Nat :=
  match parseUint32 b with
  | some ci => if ci ≥ maxCode then none else some ci
  | none => strToCode.lookup b

/-- Model of `ErrorCode.InternalCode`: the wire string of a known code,
or the placeholder for an unknown one. -/
def internalCode (c : Nat) : String :=
  match codeToInternal.lookup c with
  | some val => val
  | none => "Unknown ErrorCode(" ++ natToDecimal c ++ ")"

/-- Go's JSON encoding of an `ErrorCode` (a `uint32` without a custom
marshaller): its bare decimal digits. -/
def errorCodeMarshal (c : Nat) : String := natToDecimal c

/-- Decoding the decimal encoding of any code below `_maxCode` yields the
code back (the numeric path of `UnmarshalJSON`). -/
theorem errorCodeUnmarshal_marshal (k : Nat) (h : k < maxCode) :
    errorCodeUnmarshal (errorCodeMarshal k) = some k := by
  rw [errorCodeMarshal, errorCodeUnmarshal,
    parseUint32_natToDecimal k (lt_trans h (by norm_num [maxCode]))]
  show (if k ≥ maxCode then none else some k) = some k
  rw [if_neg (by omega)]

/-- Claim C6: for every known code of the taxonomy, decoding its JSON
encoding yields the code back, decoding the double-quoted wire string
produced by `InternalCode` also yields the code back, and the
code-to-wire-string mapping is bijective over the known codes (no two
known codes share a wire string, and each code appears once). -/
theorem errorCode_known_bijection (p : Nat × String) (hp : p ∈ codeToInternal) :
    errorCodeUnmarshal (errorCodeMarshal p.1) = some p.1 ∧
      internalCode p.1 = p.2 ∧
      errorCodeUnmarshal (quoteStr (internalCode p.1)) = some p.1 ∧
      (codeToInternal.map Prod.fst).Nodup ∧
      (codeToInternal.map Prod.snd).Nodup := by
  fin_cases hp <;>
    exact ⟨errorCodeUnmarshal_marshal _ (by norm_num [maxCode]), by decide, by decide,
      by decide, by decide⟩

/-- Witness for C6 at the known code 4003 / "INVALID_USER". -/
theorem errorCode_known_bijection_witness :
    ((4003, "INVALID_USER") ∈ codeToInternal) ∧
      (errorCodeUnmarshal (errorCodeMarshal (4003, "INVALID_USER").1) =
          some (4003, "INVALID_USER").1 ∧
        internalCode (4003, "INVALID_USER").1 = (4003, "INVALID_USER").2 ∧
        errorCodeUnmarshal (quoteStr (internalCode (4003, "INVALID_USER").1)) =
          some (4003, "INVALID_USER").1 ∧
        (codeToInternal.map Prod.fst).Nodup ∧
        (codeToInternal.map Prod.snd).Nodup) :=
  ⟨by decide, errorCode_known_bijection (4003, "INVALID_USER") (by decide)⟩

/-- Claim C7: every numeric code below `_maxCode` with no assigned meaning
(no entry in the taxonomy) still round-trips: decoding its bare decimal
JSON encoding succeeds and yields the same integer, which re-encodes to
the same decimal literal. -/
theorem errorCode_unknown_roundtrip (n : Nat) (hlt : n < maxCode)
    (hunk : codeToInternal.lookup n = none) :
    errorCodeUnmarshal (errorCodeMarshal n) = some n ∧
      errorCodeMarshal n = natToDecimal n :=
  ⟨errorCodeUnmarshal_marshal n hlt, rfl⟩

/-- Witness for C7 at the unknown code 4242. -/
theorem errorCode_unknown_roundtrip_witness :
    (4242 < maxCode ∧ codeToInternal.lookup 4242 = none) ∧
      (errorCodeUnmarshal (errorCodeMarshal 4242) = some 4242 ∧
        errorCodeMarshal 4242 = natToDecimal 4242) :=
  ⟨⟨by decide, by decide⟩, errorCode_unknown_roundtrip 4242 (by decide) (by decide)⟩

/-! ## Date (claim C8)

Embeds the `Date` wire-coercion type: `UnmarshalJSON` unquotes the raw
bytes with `strconv.Unquote`, selects the layout `"2006"` when the
unquoted text has length 4 and `"2006-01-02"` otherwise, parses with
`time.Parse`, and remembers the layout; `MarshalJSON` re-formats with the
remembered layout and re-quotes. -/

/-- The layout a `Date` was parsed with (the `fmt` field of the Go struct). -/
inductive DateFmt where
  | yearOnly
  | fullDate
deriving DecidableEq, Repr

/-- Model of the Go `Date` value: the parsed instant (year, month, day —
`time.Parse` fills month and day with 1 for a year-only layout) plus the
remembered layout. -/
structure GoDate where
  year : Nat
  month : Nat
  day : Nat
  fmt : DateFmt
deriving DecidableEq, Repr

/-- Errors of `Date.UnmarshalJSON`: the `strconv.Unquote` syntax error
(which carries no input fragment), or the date-parse error, which embeds
the offending raw literal (`"schedulesdirect.Date should be a time, error
value is: %s"` applied to the input bytes). -/
inductive DateError where
  | unquoteSyntax
  | parseError (text : String)
deriving DecidableEq, Repr

/-- Model of `strconv.Unquote`, restricted to the literals this
development evaluates it on: a double-quoted string whose interior has no
quote, no backslash and no control character unquotes to its interior;
everything else is a syntax error. (Go additionally accepts escape
sequences, single-quoted runes and backquoted strings, none of which occur
in the inputs quantified over here; on every input appearing in a theorem
below the model agrees with Go.) -/
def goUnquote (s : String) : Option String :=
  match s.data with
  | '"' :: rest =>
    match rest.getLast? with
    | some '"' =>
      let inner := rest.dropLast
      if inner.all (fun c => c ≠ '"' && c ≠ '\\' && 32 ≤ c.toNat) then some ⟨inner⟩
      else none
    | _ => none
  | _ => none

/-- Leap-year rule used by `time.Parse` when validating a day of month. -/
def isLeapYear (y : Nat) : Bool := y % 4 = 0 && (y % 100 ≠ 0 || y % 400 = 0)

/-- Days in a month, as `time.Parse` validates them. -/
def daysInMonth (y m : Nat) : Nat :=
  if m = 2 then (if isLeapYear y then 29 else 28)
  else if m = 4 ∨ m = 6 ∨ m = 9 ∨ m = 11 then 30
  else 31

/-- Model of `time.Parse("2006", str)`: exactly four decimal digits. -/
def parseYearLayout (cs : List Char) : Option Nat :=
  if cs.length = 4 ∧ cs.all isDecimalDigit then some (decimalValue cs) else none

/-- Model of `time.Parse("2006-01-02", str)`: exactly the ten-character
zero-padded form, with the month and day ranges `time.Parse` enforces. -/
def parseFullDateLayout (cs : List Char) : Option (Nat × Nat × Nat) :=
  match cs with
  | [y1, y2, y3, y4, s1, m1, m2, s2, d1, d2] =>
    if ([y1, y2, y3, y4].all isDecimalDigit ∧ s1 = '-' ∧ s2 = '-' ∧
        [m1, m2].all isDecimalDigit ∧ [d1, d2].all isDecimalDigit) then
      let y := decimalValue [y1, y2, y3, y4]
      let m := decimalValue [m1, m2]
      let d := decimalValue [d1, d2]
      if 1 ≤ m ∧ m ≤ 12 ∧ 1 ≤ d ∧ d ≤ daysInMonth y m then some (y, m, d) else none
    else none
  | _ => none

/-- Model of `Date.UnmarshalJSON`: unquote, pick the layout by the length
of the unquoted text (4 characters selects year-only), parse, remember the
layout; the parse error embeds the original raw input. -/
def dateUnmarshal (text : String) : Except DateError GoDate :=
  match goUnquote text with
  | none => .error .unquoteSyntax
  | some str =>
    if str.length = 4 then
      match parseYearLayout str.data with
      | some y => .ok ⟨y, 1, 1, .yearOnly⟩
      | none => .error (.parseError text)
    else
      match parseFullDateLayout str.data with
      | some ymd => .ok ⟨ymd.1, ymd.2.1, ymd.2.2, .fullDate⟩
      | none => .error (.parseError text)

/-- Zero-padded decimal of fixed width, as `time.Time.Format` emits for
the numeric layout fields. -/
def padNat (width n : Nat) : List Char :=
  let ds := natToDecimalAux (n + 1) n []
  List.replicate (width - ds.length) '0' ++ ds

/-- Model of `Date.MarshalJSON`: format with the remembered layout and
wrap in double quotes. -/
def dateMarshal (d : GoDate) : String :=
  match d.fmt with
  | .yearOnly => quoteStr ⟨padNat 4 d.year⟩
  | .fullDate => quoteStr ⟨padNat 4 d.year ++ '-' :: padNat 2 d.month ++ '-' :: padNat 2 d.day⟩

/-- Decode-then-encode composition for `Date`. -/
def dateRoundTrip (s : String) : Option String :=
  (dateUnmarshal s).toOption.map dateMarshal

/-- The input fragment a `DateError` carries: the parse error embeds the
offending raw literal, the unquote syntax error embeds nothing. -/
def dateErrorOffendingValue : DateError → Option String
  | .unquoteSyntax => none
  | .parseError t => some t

theorem goUnquote_quoteStr (t : String)
    (h : t.data.all (fun c => c ≠ '"' && c ≠ '\\' && 32 ≤ c.toNat) = true) :
    goUnquote (quoteStr t) = some t := by
  show (match ('"' :: t.data ++ ['"'] : List Char) with
    | '"' :: rest =>
      match rest.getLast? with
      | some '"' =>
        if (rest.dropLast).all (fun c => c ≠ '"' && c ≠ '\\' && 32 ≤ c.toNat) then
          some (⟨rest.dropLast⟩ : String)
        else none
      | _ => none
    | _ => none) = some t
  rw [show ('"' :: t.data ++ ['"'] : List Char) = '"' :: (t.data ++ ['"']) from rfl]
  simp only [List.getLast?_concat, List.dropLast_concat, h, if_true]

/-- Counterexample to the last clause of claim C8: the malformed literal
`2015` (a bare number, not a quoted string) makes `Date.UnmarshalJSON`
fail during `strconv.Unquote`, and that error carries no copy of the
offending value — only parse failures after a successful unquote embed
the input in the error message. -/
theorem date_error_naming_counterexample :
    dateUnmarshal "2015" = .error .unquoteSyntax ∧
      dateErrorOffendingValue .unquoteSyntax = none := by
  exact ⟨rfl, rfl⟩

/-- Claim C8 as amended: decoding the literal "2015" and re-encoding
yields exactly "2015" (year-only precision, no fabricated month or day),
decoding "2015-03-04" and re-encoding yields exactly "2015-03-04", and
every malformed literal that is a syntactically valid quoted string whose
content fails date parsing yields a decode error naming the offending
literal; a literal that is not a valid quoted string fails with the
unquote syntax error, which does not name the value (see the
counterexample). -/
theorem date_precision_roundtrip :
    dateRoundTrip "\"2015\"" = some "\"2015\"" ∧
      dateRoundTrip "\"2015-03-04\"" = some "\"2015-03-04\"" ∧
      ∀ t : String,
        t.data.all (fun c => c ≠ '"' && c ≠ '\\' && 32 ≤ c.toNat) = true →
        (if t.length = 4 then parseYearLayout t.data = none
         else parseFullDateLayout t.data = none) →
        dateUnmarshal (quoteStr t) = .error (.parseError (quoteStr t)) := by
  refine ⟨rfl, rfl, ?_⟩
  intro t hgood hfail
  rw [dateUnmarshal, goUnquote_quoteStr t hgood]
  by_cases h4 : t.length = 4
  · rw [if_pos h4] at hfail
    simp only [h4, if_true, hfail]
  · rw [if_neg h4] at hfail
    simp only [h4, if_false, hfail]

/-- Witness for the amended C8 at the malformed quoted literal "20XX":
the decode error embeds the full offending literal. -/
theorem date_precision_roundtrip_witness :
    dateRoundTrip "\"2015\"" = some "\"2015\"" ∧
      dateRoundTrip "\"2015-03-04\"" = some "\"2015-03-04\"" ∧
      dateUnmarshal (quoteStr "20XX") = .error (.parseError (quoteStr "20XX")) :=
  ⟨date_precision_roundtrip.1, date_precision_roundtrip.2.1,
    date_precision_roundtrip.2.2 "20XX" (by decide) (by decide)⟩

/-! ## Transport core: SendRequest (claims C1, C3, C4, C5)

Embeds `func (c Client) SendRequest(request *http.Request, needsToken
bool)` of the client file, together with the parts of the client state it
touches. Network effects are made explicit:

* each `c.HTTP.Do(request)` consumes the next entry of a scripted list of
  responses (`Env.replies`);
* each `c.GetToken(c.username, c.password)` consumes the next entry of a
  scripted list of token-endpoint outcomes (`Env.mints`): a failure
  message, or the minted token together with the expiry `GetToken` stores
  (the server-reported issue time plus 24 hours).

`SendRequest` has a value receiver in Go: the function body mutates a
copy of the client, and that copy is passed on to the recursive retry
call; the caller's client is never written to. The model mirrors this by
threading the copy explicitly and returning it in the outcome, while
`callerClientAfterSendRequest` gives the state the caller observes after
the call (its own, unchanged, value). -/

/-- The session-relevant fields of the Go `Client` struct. -/
structure Client where
  token : String
  tokenExpiresAt : Int
  userAgent : String
  username : String
  password : String
  failedRequests : Nat
deriving DecidableEq, Repr

/-- One scripted HTTP response: the status code, the outcome of
`json.Unmarshal(buf.Bytes(), baseResp)` on the buffered (and, when
applicable, gunzipped) body — `some code` when the body parses as the
generic envelope with that `code` field, `none` when it does not parse as
the envelope — and the raw body bytes. -/
structure SDResponse where
  statusCode : Nat
  envelopeCode : Option Nat
  body : String
deriving DecidableEq, Repr

deriving instance DecidableEq for Except

/-- One scripted outcome of the token endpoint: an error message, or the
minted token and the expiry timestamp `GetToken` stores. -/
def MintOutcome : Type := Except String (String × Int)

instance : DecidableEq MintOutcome := by
  rw [MintOutcome]
  infer_instance

/-- The scripted network environment a `SendRequest` call consumes. -/
structure Env where
  replies : List SDResponse
  mints : List MintOutcome
deriving DecidableEq

/-- The errors `SendRequest` can return, one constructor per `return`
site of the Go function. -/
inductive SendErr where
  | notInitialized
  | refreshAfterExpiryFailed (msg : String)
  | refreshAfterInvalidUserFailed (msg : String)
  | transportUnreachable
  | serviceError (code : Nat)
  | httpStatusError (status : Nat) (body : String)
  | outOfFuel
deriving DecidableEq, Repr

/-- Everything observable about one `SendRequest` call: the returned
value (the body bytes on success), the value-receiver copy of the client
at the return point, the unconsumed environment, the token header
attached to each HTTP request that was actually executed (`none` when
`needsToken` is false), and how many token mints were triggered by the
pre-request expiry check (`preMints`) respectively by the
invalid-credentials retry (`retryMints`). -/
structure SendOutcome where
  result : Except SendErr String
  client : Client
  env : Env
  sentTokens : List (Option String)
  preMints : Nat
  retryMints : Nat
deriving DecidableEq

/-- Models `token, tokenErr := c.GetToken(c.username, c.password)`
followed (on success) by `c.Token = token`: `GetToken` itself stores the
new expiry on success and leaves the session untouched on failure. An
exhausted mint script plays the role of an unreachable token endpoint. -/
def refreshToken (c : Client) (env : Env) : Except String Client × Env :=
  match env.mints with
  | [] => (.error "cannot reach schedules direct service", env)
  | m :: ms =>
    match m with
    | .error e => (.error e, { env with mints := ms })
    | .ok te => (.ok { c with token := te.1, tokenExpiresAt := te.2 }, { env with mints := ms })

/-- The tail of the Go function after the envelope checks: `if
response.StatusCode > 399` return the status error, otherwise
`c.failedRequests = 0` and return the body bytes. -/
def finishRequest (c : Client) (env : Env) (resp : SDResponse) (sent : Option String)
    (pre retry : Nat) : SendOutcome :=
  if resp.statusCode > 399 then
    ⟨.error (.httpStatusError resp.statusCode resp.body), c, env, [sent], pre, retry⟩
  else
    ⟨.ok resp.body, { c with failedRequests := 0 }, env, [sent], pre, retry⟩

/-- The part of the `SendRequest` body from the header-setting onwards
(headers, `HTTP.Do`, body buffering, envelope checks, status check,
success). `retry` is the recursive `return c.SendRequest(request,
needsToken)` call of the invalid-credentials branch, abstracted so that
the recursion is carried by the fuel of `sendRequestGo`; `pre` records
whether the pre-request refresh ran, for the mint accounting. -/
def sendRequestCore (retry : Client → Env → SendOutcome) (c : Client) (env : Env)
    (needsToken : Bool) (pre : Nat) : SendOutcome :=
  match env.replies with
  | [] => ⟨.error .transportUnreachable, c, env, [], pre, 0⟩
  | resp :: rest =>
    let env1 : Env := { env with replies := rest }
    -- request.Header.Set("token", c.Token) when needsToken
    let sent : Option String := if needsToken then some c.token else none
    match resp.envelopeCode with
    | some code =>
      -- if baseResp.Code == ErrInvalidUser && c.failedRequests == 0
      if code = ErrInvalidUser ∧ c.failedRequests = 0 then
        let c1 := { c with failedRequests := c.failedRequests + 1 }
        match refreshToken c1 env1 with
        | (.error e, env2) =>
          ⟨.error (.refreshAfterInvalidUserFailed e), c1, env2, [sent], pre, 1⟩
        | (.ok c2, env2) =>
          let out := retry c2 env2
          ⟨out.result, out.client, out.env, sent :: out.sentTokens,
            pre + out.preMints, 1 + out.retryMints⟩
      else if code ≠ 0 then
        ⟨.error (.serviceError code), c, env1, [sent], pre, 0⟩
      else finishRequest c env1 resp sent pre 0
    | none => finishRequest c env1 resp sent pre 0

/-- Model of `Client.SendRequest`, line by line. `fuel` bounds the
recursion depth of the invalid-credentials retry (`return
c.SendRequest(request, needsToken)`); two units always suffice, because
the retry is taken only when `failedRequests` is zero and it runs on a
copy whose counter was just incremented. -/
def sendRequestGo : Nat → Client → Env → Bool → Int → SendOutcome
  | 0, c, env, _, _ => ⟨.error .outOfFuel, c, env, [], 0, 0⟩
  | fuel + 1, c, env, needsToken, now =>
    -- if needsToken && c.Token == ""
    if needsToken = true ∧ c.token = "" then
      ⟨.error .notInitialized, c, env, [], 0, 0⟩
    else
      -- if time.Now().After(c.TokenExpiresAt) && c.failedRequests == 0
      if now > c.tokenExpiresAt ∧ c.failedRequests = 0 then
        let c1 := { c with failedRequests := c.failedRequests + 1 }
        match refreshToken c1 env with
        | (.error e, env1) =>
          ⟨.error (.refreshAfterExpiryFailed e), c1, env1, [], 1, 0⟩
        | (.ok c2, env1) =>
          sendRequestCore (fun c3 env3 => sendRequestGo fuel c3 env3 needsToken now)
            c2 env1 needsToken 1
      else
        sendRequestCore (fun c3 env3 => sendRequestGo fuel c3 env3 needsToken now)
          c env needsToken 0

/-- `SendRequest` with enough fuel for the single retry the code can take. -/
def SendRequest (c : Client) (env : Env) (needsToken : Bool) (now : Int) : SendOutcome :=
  sendRequestGo 2 c env needsToken now

/-- What the caller's own `Client` value holds after `SendRequest`
returns: Go passes the receiver by value (`func (c Client) SendRequest`),
so every assignment to `c.Token`, `c.TokenExpiresAt` or
`c.failedRequests` inside the call happens on a copy and the caller's
client is unchanged. -/
def callerClientAfterSendRequest (c : Client) (env : Env) (needsToken : Bool)
    (now : Int) : Client := c

/-! ### Mint-accounting lemmas -/

theorem sendRequestCore_preMints (retry : Client → Env → SendOutcome) (c : Client)
    (env : Env) (needs : Bool) (pre : Nat)
    (hB : ∀ (c2 : Client) (env2 : Env), c2.failedRequests ≠ 0 → (retry c2 env2).preMints = 0) :
    (sendRequestCore retry c env needs pre).preMints = pre := by
  obtain ⟨replies, mints⟩ := env
  cases replies with
  | nil => rfl
  | cons resp rest =>
    rw [sendRequestCore]
    dsimp only
    cases hec : resp.envelopeCode with
    | none => dsimp only [finishRequest]; split <;> rfl
    | some code =>
      dsimp only
      by_cases hcond : code = ErrInvalidUser ∧ c.failedRequests = 0
      · simp only [hcond, and_self, if_true, hcond.2]
        cases hm : mints with
        | nil => rfl
        | cons m ms =>
          cases m with
          | error e => rfl
          | ok te =>
            simp only [refreshToken]
            have hB2 := hB ⟨te.1, te.2, c.userAgent, c.username, c.password, 0 + 1⟩
              ⟨rest, ms⟩ (by simp)
            simp only [hB2]
            simp
      · rw [if_neg hcond]
        split
        · rfl
        · dsimp only [finishRequest]; split <;> rfl

/-- A call whose failure counter is already nonzero never triggers the
pre-request refresh, in any of its branches. -/
theorem sendRequestGo_preMints_of_fr (fuel : Nat) (c : Client) (env : Env) (needs : Bool)
    (now : Int) (hfr : c.failedRequests ≠ 0) :
    (sendRequestGo fuel c env needs now).preMints = 0 := by
  cases fuel with
  | zero => rfl
  | succ fuel =>
    rw [sendRequestGo]
    split
    · rfl
    · rw [if_neg (by simp [hfr])]
      exact sendRequestCore_preMints _ c env needs 0
        (fun c2 env2 h2 => sendRequestGo_preMints_of_fr fuel c2 env2 needs now h2)

/-- The number of pre-request refreshes of a whole `SendRequest` call is
exactly one when `time.Now()` is strictly after the stored expiry and the
failure counter is zero, and zero otherwise — independent of the
`needsToken` flag. -/
theorem sendRequestGo_preMints_eq (fuel : Nat) (c : Client) (env : Env) (needs : Bool)
    (now : Int) (hInit : ¬(needs = true ∧ c.token = "")) :
    (sendRequestGo (fuel + 1) c env needs now).preMints =
      if now > c.tokenExpiresAt ∧ c.failedRequests = 0 then 1 else 0 := by
  rw [sendRequestGo, if_neg hInit]
  by_cases hcond : now > c.tokenExpiresAt ∧ c.failedRequests = 0
  · rw [if_pos hcond, if_pos hcond]
    obtain ⟨replies, mints⟩ := env
    cases mints with
    | nil => rfl
    | cons m ms =>
      cases m with
      | error e => rfl
      | ok te =>
        simp only [refreshToken]
        exact sendRequestCore_preMints _ _ _ needs 1
          (fun c2 env2 h2 => sendRequestGo_preMints_of_fr fuel c2 env2 needs now h2)
  · rw [if_neg hcond, if_neg hcond]
    exact sendRequestCore_preMints _ c env needs 0
      (fun c2 env2 h2 => sendRequestGo_preMints_of_fr fuel c2 env2 needs now h2)

/-! ### Claim theorems about SendRequest -/

/-- Claim C1: for an authenticated request issued with a zero failure
counter (and an unexpired, non-empty token, so that the counter is still
zero when the reply arrives), whose first service reply is a well-formed
envelope with the invalid-credentials code 4003, `SendRequest` consumes
exactly one token mint (`retryMints = 1`, `preMints = 0`, exactly one
entry of the mint script used), retries the original request exactly once
with the newly minted token (the token headers sent are the old token
then the new one — two transport calls, no more), and, when the retried
request succeeds, returns its body bytes. -/
theorem sendRequest_auth_retry_once
    (c : Client) (now : Int) (r1 r2 : SDResponse) (rrest : List SDResponse)
    (tok : String) (exp : Int) (mrest : List MintOutcome)
    (hTok : c.token ≠ "") (hNewTok : tok ≠ "")
    (hFr : c.failedRequests = 0) (hFresh : ¬ now > c.tokenExpiresAt)
    (hR1 : r1.envelopeCode = some ErrInvalidUser)
    (hR2 : r2.envelopeCode = none ∨ r2.envelopeCode = some 0)
    (hR2st : ¬ r2.statusCode > 399) :
    (SendRequest c ⟨r1 :: r2 :: rrest, .ok (tok, exp) :: mrest⟩ true now).result =
        .ok r2.body ∧
      (SendRequest c ⟨r1 :: r2 :: rrest, .ok (tok, exp) :: mrest⟩ true now).sentTokens =
        [some c.token, some tok] ∧
      (SendRequest c ⟨r1 :: r2 :: rrest, .ok (tok, exp) :: mrest⟩ true now).preMints = 0 ∧
      (SendRequest c ⟨r1 :: r2 :: rrest, .ok (tok, exp) :: mrest⟩ true now).retryMints = 1 ∧
      (SendRequest c ⟨r1 :: r2 :: rrest, .ok (tok, exp) :: mrest⟩ true now).env =
        ⟨rrest, mrest⟩ := by
  rcases hR2 with h2 | h2 <;>
    simp [SendRequest, sendRequestGo, sendRequestCore, refreshToken, finishRequest,
      hTok, hNewTok, hFr, hFresh, hR1, h2, hR2st, ErrInvalidUser]

/-- Witness for C1: a client with token "old" and a fresh expiry, a first
reply carrying code 4003 and a second succeeding, with one scripted mint
of "new": the call returns the second body, sent headers ["old", "new"],
and consumed exactly the one mint. -/
theorem sendRequest_auth_retry_once_witness :
    (SendRequest (Client.mk "old" 10 "ua" "u" "p" 0)
        (Env.mk [SDResponse.mk 200 (some ErrInvalidUser) "err", SDResponse.mk 200 none "payload"]
          [Except.ok ("new", 100)]) true 5).result = .ok "payload" ∧
      (SendRequest (Client.mk "old" 10 "ua" "u" "p" 0)
          (Env.mk [SDResponse.mk 200 (some ErrInvalidUser) "err", SDResponse.mk 200 none "payload"]
            [Except.ok ("new", 100)]) true 5).sentTokens = [some "old", some "new"] ∧
      (SendRequest (Client.mk "old" 10 "ua" "u" "p" 0)
          (Env.mk [SDResponse.mk 200 (some ErrInvalidUser) "err", SDResponse.mk 200 none "payload"]
            [Except.ok ("new", 100)]) true 5).preMints = 0 ∧
      (SendRequest (Client.mk "old" 10 "ua" "u" "p" 0)
          (Env.mk [SDResponse.mk 200 (some ErrInvalidUser) "err", SDResponse.mk 200 none "payload"]
            [Except.ok ("new", 100)]) true 5).retryMints = 1 ∧
      (SendRequest (Client.mk "old" 10 "ua" "u" "p" 0)
          (Env.mk [SDResponse.mk 200 (some ErrInvalidUser) "err", SDResponse.mk 200 none "payload"]
            [Except.ok ("new", 100)]) true 5).env = Env.mk [] [] :=
  sendRequest_auth_retry_once (Client.mk "old" 10 "ua" "u" "p" 0) 5
    (SDResponse.mk 200 (some ErrInvalidUser) "err") (SDResponse.mk 200 none "payload") []
    "new" 100 [] (by decide) (by decide) (by decide) (by decide) rfl (Or.inl rfl) (by decide)

/-- Claim C3: when neither the pre-request refresh nor the single
invalid-credentials retry applies, (a) a reply whose body parses as the
generic envelope with a non-zero code is returned as the typed service
error regardless of the HTTP status code, and (b) the generic status-code
error (status above 399, carrying the status and the body) is returned
only when the envelope parse did not classify the reply (no envelope, or
the OK sentinel zero). -/
theorem sendRequest_envelope_precedence
    (c : Client) (now : Int) (resp : SDResponse) (rrest : List SDResponse)
    (mints : List MintOutcome) (needs : Bool)
    (hInit : ¬(needs = true ∧ c.token = ""))
    (hNoPre : ¬(now > c.tokenExpiresAt ∧ c.failedRequests = 0)) :
    (∀ k : Nat, resp.envelopeCode = some k → k ≠ 0 →
      ¬(k = ErrInvalidUser ∧ c.failedRequests = 0) →
      (SendRequest c ⟨resp :: rrest, mints⟩ needs now).result =
        .error (.serviceError k)) ∧
    ((resp.envelopeCode = none ∨ resp.envelopeCode = some 0) → resp.statusCode > 399 →
      (SendRequest c ⟨resp :: rrest, mints⟩ needs now).result =
        .error (.httpStatusError resp.statusCode resp.body)) := by
  constructor
  · intro k hk hk0 hkr
    simp [SendRequest, sendRequestGo, sendRequestCore, finishRequest, hInit, hNoPre,
      hk, hk0, hkr]
  · intro he hst
    rcases he with h | h <;>
      simp [SendRequest, sendRequestGo, sendRequestCore, finishRequest, hInit, hNoPre,
        h, hst, ErrInvalidUser]

/-- Witness for C3: an HTTP-200 reply whose body is an envelope with code
2050 comes back as the service error 2050, while an HTTP-500 reply whose
body is not an envelope comes back as the generic status error. -/
theorem sendRequest_envelope_precedence_witness :
    (SendRequest (Client.mk "tok" 10 "ua" "u" "p" 0)
        (Env.mk [SDResponse.mk 200 (some 2050) "err"] []) true 5).result =
      .error (.serviceError 2050) ∧
    (SendRequest (Client.mk "tok" 10 "ua" "u" "p" 0)
        (Env.mk [SDResponse.mk 500 none "boom"] []) true 5).result =
      .error (.httpStatusError 500 "boom") :=
  ⟨(sendRequest_envelope_precedence (Client.mk "tok" 10 "ua" "u" "p" 0) 5
      (SDResponse.mk 200 (some 2050) "err") [] [] true (by decide) (by decide)).1
      2050 rfl (by decide) (by decide),
   (sendRequest_envelope_precedence (Client.mk "tok" 10 "ua" "u" "p" 0) 5
      (SDResponse.mk 500 none "boom") [] [] true (by decide) (by decide)).2
      (Or.inl rfl) (by decide)⟩

/-- Counterexample to claim C4. The claim states the pre-request renewal
happens exactly when the request needs authentication, the time is at or
after the expiry, and no retry is in flight. The code's guard is
`time.Now().After(c.TokenExpiresAt) && c.failedRequests == 0` — it never
consults `needsToken` and it is strict. First three conjuncts: an
unauthenticated request (`needsToken = false`) with an expired token
still triggers exactly one renewal, whose failure is returned without any
transport call. Last conjunct: an authenticated request at exactly the
expiry instant (now = expiry, "at or after" per the claim) triggers no
renewal, because `After` is strict. -/
theorem sendRequest_prerefresh_counterexample :
    (SendRequest (Client.mk "old" 10 "ua" "u" "p" 0)
        (Env.mk [SDResponse.mk 200 none "payload"] [Except.error "boom"]) false 15).preMints
        = 1 ∧
      (SendRequest (Client.mk "old" 10 "ua" "u" "p" 0)
          (Env.mk [SDResponse.mk 200 none "payload"] [Except.error "boom"]) false 15).result
        = .error (.refreshAfterExpiryFailed "boom") ∧
      (SendRequest (Client.mk "old" 10 "ua" "u" "p" 0)
          (Env.mk [SDResponse.mk 200 none "payload"] [Except.error "boom"]) false
          15).sentTokens = [] ∧
      (SendRequest (Client.mk "old" 10 "ua" "u" "p" 0)
          (Env.mk [SDResponse.mk 200 none "ok"] [Except.ok ("new", 100)]) true 10).preMints
        = 0 := by
  decide

/-- Claim C4 as amended: for every `SendRequest` invocation that passes
the initial token-presence check, a pre-request renewal happens exactly
when the wall clock is strictly after `token_expiry` and the failure
counter is zero — regardless of whether the request needs authentication;
and when that renewal fails, its error is returned and the original
request is never attempted (no transport call happens and the reply
script is untouched). -/
theorem sendRequest_prerefresh_characterization
    (c : Client) (env : Env) (needs : Bool) (now : Int)
    (hInit : ¬(needs = true ∧ c.token = "")) :
    ((SendRequest c env needs now).preMints =
      if now > c.tokenExpiresAt ∧ c.failedRequests = 0 then 1 else 0) ∧
    (∀ (e : String) (mrest : List MintOutcome), env.mints = .error e :: mrest →
      now > c.tokenExpiresAt → c.failedRequests = 0 →
      (SendRequest c env needs now).result = .error (.refreshAfterExpiryFailed e) ∧
      (SendRequest c env needs now).sentTokens = [] ∧
      (SendRequest c env needs now).env.replies = env.replies) := by
  constructor
  · exact sendRequestGo_preMints_eq 1 c env needs now hInit
  · intro e mrest hm hgt hfr
    rw [SendRequest]
    rw [show (2 : Nat) = 1 + 1 from rfl, sendRequestGo, if_neg hInit,
      if_pos ⟨hgt, hfr⟩]
    simp [refreshToken, hm]

/-- Witness for the amended C4: an authenticated request with an expired
token and a failing mint returns the refresh error without sending
anything. -/
theorem sendRequest_prerefresh_characterization_witness :
    (SendRequest (Client.mk "old" 10 "ua" "u" "p" 0)
        (Env.mk [SDResponse.mk 200 none "x"] [Except.error "boom"]) true 15).result =
      .error (.refreshAfterExpiryFailed "boom") ∧
    (SendRequest (Client.mk "old" 10 "ua" "u" "p" 0)
        (Env.mk [SDResponse.mk 200 none "x"] [Except.error "boom"]) true 15).sentTokens =
      [] := by
  have h := (sendRequest_prerefresh_characterization (Client.mk "old" 10 "ua" "u" "p" 0)
    (Env.mk [SDResponse.mk 200 none "x"] [Except.error "boom"]) true 15 (by decide)).2
    "boom" [] rfl (by decide) (by decide)
  exact ⟨h.1, h.2.1⟩

/-- Counterexample to claim C5. The claim states `SendRequest`'s
session-state mutations are visible to its caller, in particular that
after a call during which the token was renewed the client's stored token
equals the newly minted token. `SendRequest` has a value receiver
(`func (c Client) SendRequest`), so here a call renews the token to "new"
(the retried request is sent with it and succeeds), yet the caller's
client is bit-for-bit unchanged and still stores "old". -/
theorem sendRequest_caller_state_counterexample :
    (SendRequest (Client.mk "old" 10 "ua" "u" "p" 0)
        (Env.mk [SDResponse.mk 200 (some 4003) "err", SDResponse.mk 200 none "payload"]
          [Except.ok ("new", 100)]) true 5).result = .ok "payload" ∧
      (SendRequest (Client.mk "old" 10 "ua" "u" "p" 0)
          (Env.mk [SDResponse.mk 200 (some 4003) "err", SDResponse.mk 200 none "payload"]
            [Except.ok ("new", 100)]) true 5).client.token = "new" ∧
      callerClientAfterSendRequest (Client.mk "old" 10 "ua" "u" "p" 0)
          (Env.mk [SDResponse.mk 200 (some 4003) "err", SDResponse.mk 200 none "payload"]
            [Except.ok ("new", 100)]) true 5 = Client.mk "old" 10 "ua" "u" "p" 0 ∧
      (callerClientAfterSendRequest (Client.mk "old" 10 "ua" "u" "p" 0)
          (Env.mk [SDResponse.mk 200 (some 4003) "err", SDResponse.mk 200 none "payload"]
            [Except.ok ("new", 100)]) true 5).token ≠ "new" := by
  decide

/-- Claim C5 as amended: `SendRequest`'s session-state mutations are
confined to its value-receiver copy. Within one logical call they are
real — after a renewal the copy's token and expiry are the minted ones,
the retry is sent with the new token, and a fully successful request
resets the copy's failure counter to 0 — but the caller's stored client
(token, expiry, failure counter and all other fields) is unchanged after
the call returns. -/
theorem sendRequest_value_receiver_frame
    (c : Client) (now : Int) (r1 r2 : SDResponse) (rrest : List SDResponse)
    (tok : String) (exp : Int) (mrest : List MintOutcome)
    (hTok : c.token ≠ "") (hNewTok : tok ≠ "")
    (hFr : c.failedRequests = 0) (hFresh : ¬ now > c.tokenExpiresAt)
    (hR1 : r1.envelopeCode = some ErrInvalidUser)
    (hR2 : r2.envelopeCode = none ∨ r2.envelopeCode = some 0)
    (hR2st : ¬ r2.statusCode > 399) :
    callerClientAfterSendRequest c ⟨r1 :: r2 :: rrest, .ok (tok, exp) :: mrest⟩ true now
        = c ∧
      (SendRequest c ⟨r1 :: r2 :: rrest, .ok (tok, exp) :: mrest⟩ true now).client.token
        = tok ∧
      (SendRequest c ⟨r1 :: r2 :: rrest, .ok (tok, exp) :: mrest⟩ true
          now).client.tokenExpiresAt = exp ∧
      (SendRequest c ⟨r1 :: r2 :: rrest, .ok (tok, exp) :: mrest⟩ true
          now).client.failedRequests = 0 ∧
      (SendRequest c ⟨r1 :: r2 :: rrest, .ok (tok, exp) :: mrest⟩ true now).sentTokens =
        [some c.token, some tok] := by
  refine ⟨rfl, ?_⟩
  rcases hR2 with h2 | h2 <;>
    simp [SendRequest, sendRequestGo, sendRequestCore, refreshToken, finishRequest,
      hTok, hNewTok, hFr, hFresh, hR1, h2, hR2st, ErrInvalidUser]

/-- Witness for the amended C5 at the renewal scenario: the copy ends
with token "new", expiry 100 and counter 0, while the caller's client is
unchanged. -/
theorem sendRequest_value_receiver_frame_witness :
    callerClientAfterSendRequest (Client.mk "old" 10 "ua" "u" "p" 0)
        (Env.mk [SDResponse.mk 200 (some ErrInvalidUser) "err", SDResponse.mk 200 none "payload"]
          [Except.ok ("new", 100)]) true 5 = Client.mk "old" 10 "ua" "u" "p" 0 ∧
      (SendRequest (Client.mk "old" 10 "ua" "u" "p" 0)
          (Env.mk [SDResponse.mk 200 (some ErrInvalidUser) "err", SDResponse.mk 200 none "payload"]
            [Except.ok ("new", 100)]) true 5).client.token = "new" ∧
      (SendRequest (Client.mk "old" 10 "ua" "u" "p" 0)
          (Env.mk [SDResponse.mk 200 (some ErrInvalidUser) "err", SDResponse.mk 200 none "payload"]
            [Except.ok ("new", 100)]) true 5).client.tokenExpiresAt = 100 ∧
      (SendRequest (Client.mk "old" 10 "ua" "u" "p" 0)
          (Env.mk [SDResponse.mk 200 (some ErrInvalidUser) "err", SDResponse.mk 200 none "payload"]
            [Except.ok ("new", 100)]) true 5).client.failedRequests = 0 ∧
      (SendRequest (Client.mk "old" 10 "ua" "u" "p" 0)
          (Env.mk [SDResponse.mk 200 (some ErrInvalidUser) "err", SDResponse.mk 200 none "payload"]
            [Except.ok ("new", 100)]) true 5).sentTokens = [some "old", some "new"] :=
  sendRequest_value_receiver_frame (Client.mk "old" 10 "ua" "u" "p" 0) 5
    (SDResponse.mk 200 (some ErrInvalidUser) "err") (SDResponse.mk 200 none "payload") []
    "new" 100 [] (by decide) (by decide) (by decide) (by decide) rfl (Or.inl rfl) (by decide)

/-! ## Chunked bulk endpoint: GetArtworkForProgramIDs (claim C2)

Embeds `chunkStringSlice` and the two revisions of
`GetArtworkForProgramIDs` present in the repository. In the
schedulesdirect.go revision the chunking branch is

    allResponses := make([]ProgramArtworkResponse, len(programIDs))
    for _, chunk := range chunkStringSlice(programIDs, 500) {
        resp, err := c.GetArtworkForProgramIDs(chunk)
        if err != nil { return nil, err }
        allResponses = append(allResponses, resp...)
    }

which pre-allocates `len(programIDs)` zero-valued entries and appends the
batch results after them; the artwork revision in the unnamed part
instead starts from `make([]ArtworkResponse, 0)`. The transport and the
per-batch unmarshalling are abstracted as `batch`, mapping the marshalled
ID list of one call to that call's decoded responses (or its error). -/

/-- Model of `chunkStringSlice`: splits in order into runs of
`chunkSize`, the last one shorter. Fuel-based structural recursion
(`sl.length` units always suffice for a positive `chunkSize`; Go's loop
does not terminate for `chunkSize = 0`, a case no caller exercises —
the callers pass the constants 500 and 5000). -/
def chunkAux (fuel : Nat) (sl : List String) (chunkSize : Nat) : List (List String) :=
  match fuel with
  | 0 => []
  | fuel + 1 =>
    if sl = [] then []
    else sl.take chunkSize :: chunkAux fuel (sl.drop chunkSize) chunkSize

/-- The `chunkStringSlice` entry point. -/
def chunkStringSlice (sl : List String) (chunkSize : Nat) : List (List String) :=
  chunkAux sl.length sl chunkSize

/-- Every chunk produced by `chunkAux` is a `take chunkSize`, hence no
longer than `chunkSize`. -/
theorem chunkAux_length_le (fuel : Nat) (sl : List String) (chunkSize : Nat)
    (ch : List String) (hch : ch ∈ chunkAux fuel sl chunkSize) :
    ch.length ≤ chunkSize := by
  induction fuel generalizing sl with
  | zero => simp [chunkAux] at hch
  | succ fuel ih =>
    rw [chunkAux] at hch
    by_cases hnil : sl = []
    · simp [hnil] at hch
    · rw [if_neg hnil] at hch
      rcases List.mem_cons.mp hch with h | h
      · rw [h]
        simpa using List.length_take_le chunkSize sl
      · exact ih _ h

/-- Every chunk of `chunkStringSlice` with cap 500 has at most 500
entries; this is what lets the recursive per-chunk call of the Go code
take the at-most-500 branch, which the loop models below inline. -/
theorem chunkStringSlice_length_le (sl : List String) (ch : List String)
    (hch : ch ∈ chunkStringSlice sl 500) : ch.length ≤ 500 :=
  chunkAux_length_le sl.length sl 500 ch hch

/-- The chunking loop shared by both revisions: issue the per-chunk call
left to right, abort with the first error (discarding everything
accumulated), append each chunk's responses to the accumulator. -/
def artworkChunkLoop {α : Type} (call : List String → Except SendErr (List α)) :
    List (List String) → List α → Except SendErr (List α)
  | [], acc => .ok acc
  | chunk :: rest, acc =>
    match call chunk with
    | .error e => .error e
    | .ok resp => artworkChunkLoop call rest (acc ++ resp)

/-- Model of the schedulesdirect.go revision of
`GetArtworkForProgramIDs`: on more than 500 IDs, chunk and loop starting
from `make([]..., len(programIDs))` — `programIDs.length` copies of the
zero value `dflt`; on at most 500 IDs, truncate the IDs in place and
issue the single call. Each recursive per-chunk call takes the small
branch (see `chunkStringSlice_length_le`) and is inlined as such. -/
def getArtworkForProgramIDsGo {α : Type} (batch : List String → Except SendErr (List α))
    (dflt : α) (programIDs : List String) : Except SendErr (List α) :=
  if programIDs.length > 500 then
    artworkChunkLoop (fun chunk => batch (truncateProgramIDs chunk))
      (chunkStringSlice programIDs 500) (List.replicate programIDs.length dflt)
  else batch (truncateProgramIDs programIDs)

/-- Model of the artwork-file revision (unnamed part) of
`GetArtworkForProgramIDs`: identical, except the accumulator starts from
`make([]ArtworkResponse, 0)` — the empty list — and the at-most-500
branch performs no truncation. -/
def getArtworkForProgramIDsFixed {α : Type} (batch : List String → Except SendErr (List α))
    (programIDs : List String) : Except SendErr (List α) :=
  if programIDs.length > 500 then
    artworkChunkLoop batch (chunkStringSlice programIDs 500) []
  else batch programIDs

set_option maxRecDepth 10000 in
/-- Claim C2 evaluated at a failing input (code bug). With 501 program
IDs and a transport answering every batch with one response per ID, the
schedulesdirect.go revision issues the two batches (500 IDs, then 1) in
order but returns 1002 entries — 501 zero-valued entries prepended to the
501 real responses — instead of one response per input ID; the revision
in the unnamed artwork file returns exactly the 501 responses in input
order, as the claim (and the spec) state. A failing second batch aborts
the whole call with that error and no partial results, in both
revisions. -/
theorem getArtwork_chunking_bug_eval :
    chunkStringSlice (List.replicate 501 "p") 500 =
        [List.replicate 500 "p", ["p"]] ∧
      getArtworkForProgramIDsGo (fun b => .ok b) "" (List.replicate 501 "p") =
        .ok (List.replicate 501 "" ++ List.replicate 501 "p") ∧
      (List.replicate 501 ("" : String) ++ List.replicate 501 "p").length = 1002 ∧
      getArtworkForProgramIDsFixed (fun b => .ok b) (List.replicate 501 "p") =
        .ok (List.replicate 501 "p") ∧
      getArtworkForProgramIDsGo
          (fun b => if b.length = 500 then .ok b else .error (.serviceError 2050)) ""
          (List.replicate 501 "p") = .error (.serviceError 2050) ∧
      getArtworkForProgramIDsFixed
          (fun b => if b.length = 500 then .ok b else .error (.serviceError 2050))
          (List.replicate 501 "p") = .error (.serviceError 2050) := by
  exact ⟨rfl, rfl, rfl, rfl, rfl, rfl⟩
